import Mathlib

/-!
Verification of the komplier-agents support-agent decision pipeline.

Shallow embedding of the JavaScript sources:
  src/lib/business-rules.js  (BusinessRulesEngine)
  src/lib/ai.js              (AIOperations.analyzeEmail)
  src/lib/gmail.js           (isValidSupportEmail, markEmailAsRead)
  src/lib/stripe.js          (validateRefundRequest, totalPaid)
  src/lib/knowledge-base.js  (SupabaseOperations.calculateRefundEligibility)
  src/index.js               (buildUserContext, processNewEmails)
  src/api email processor    (processEmail, executeAction, handleRefundRequest)

Modelling conventions: JavaScript strings are `List Char`; JS numbers that hold
money or counters are `ℤ`; confidences and sentiments are `ℚ`; a JS field that
may be `undefined` is an `Option`; a JS function that may throw is an
`Except (List Char)`; template-literal interpolation of a number is modelled by
an explicit digit rendering (the rendered text is only ever inspected for
keyword containment, never re-parsed).
-/

/-- Lowercase a single ASCII character (model of `String.prototype.toLowerCase`
restricted to the ASCII texts the repository manipulates). -/
def lowerChar (c : Char) : Char :=
  if 'A' ≤ c ∧ c ≤ 'Z' then Char.ofNat (c.toNat + 32) else c

/-- Lowercase a character list. -/
def lowerChars (s : List Char) : List Char := s.map lowerChar

/-- Does `pat` occur as an initial run of `l`? -/
def runAtStart : List Char → List Char → Bool
  | _, [] => true
  | [], _ :: _ => false
  | c :: cs, d :: ds => c = d && runAtStart cs ds

/-- Does `pat` occur contiguously anywhere in `l`?  This is the model of
JavaScript `String.prototype.includes`. -/
def containsRun (pat : List Char) : List Char → Bool
  | [] => runAtStart [] pat
  | c :: cs => runAtStart (c :: cs) pat || containsRun pat cs

/-- Decimal digits of a natural number, most significant first (fuel-based so
the kernel can evaluate it). -/
def natDigitsAux : Nat → Nat → List Char
  | 0, _ => []
  | fuel + 1, n =>
    if n = 0 then [] else natDigitsAux fuel (n / 10) ++ [Char.ofNat (48 + n % 10)]

/-- Render a natural number in decimal. -/
def natToChars (n : Nat) : List Char :=
  if n = 0 then ['0'] else natDigitsAux (n + 1) n

/-- Render an integer in decimal. -/
def intToChars (i : ℤ) : List Char :=
  (if i < 0 then ['-'] else []) ++ natToChars i.natAbs

/-- Render a rational for interpolation into a reason string.  JavaScript
renders its floats in decimal; the claims only ever inspect these renderings
for alphabetic keyword containment, so a numerator/denominator digit rendering
is a faithful stand-in. -/
def ratToChars (q : ℚ) : List Char :=
  intToChars q.num ++ (if q.den = 1 then [] else '/' :: natToChars q.den)

/-- The rational 7/10 in reduced constructor form (kernel-reducible, unlike
the division numeral). -/
def qSevenTenths : ℚ := Rat.mk' 7 10 (by norm_num) (by norm_num)

/-- The rational -1/2 in reduced constructor form. -/
def qMinusHalf : ℚ := Rat.mk' (-1) 2 (by norm_num) (by norm_num)

/-- The rational 1/10 in reduced constructor form. -/
def qOneTenth : ℚ := Rat.mk' 1 10 (by norm_num) (by norm_num)

/-- The rational -3/5 (the -0.6 sentiment cutoff) in reduced constructor
form. -/
def qMinusThreeFifths : ℚ := Rat.mk' (-3) 5 (by norm_num) (by norm_num)

/-- Model of `Array.prototype.join(sep)`. -/
def joinSep (sep : List Char) : List (List Char) → List Char
  | [] => []
  | [x] => x
  | x :: y :: xs => x ++ sep ++ joinSep sep (y :: xs)

/-! ## Configuration (config/agent-config.json, businessRules section) -/

/-- The `refunds.autoApproveConditions` block of the configuration. -/
structure AutoApproveConditions where
  compliantAssetsMax : ℤ
  completedProjectsMax : ℤ
  daysSinceSignupMax : ℤ
deriving DecidableEq

/-- The `refunds` block of the configuration. -/
structure RefundsConfig where
  autoApproveConditions : AutoApproveConditions
  refundAmountDefault : ℤ
deriving DecidableEq

/-- The `escalation` block of the configuration. -/
structure EscalationConfig where
  aiConfidenceThreshold : ℚ
  keywords : List (List Char)
  sentimentThreshold : ℚ
deriving DecidableEq

/-- The `config.businessRules` object handed to `BusinessRulesEngine`. -/
structure BusinessRulesConfig where
  refunds : RefundsConfig
  escalation : EscalationConfig
deriving DecidableEq

/-- Modelled from the spec: the repository's `config/agent-config.json` is not
under `src/`, so the default business-rule configuration is reconstructed from
the specification: refund auto-approval thresholds 5 / 0 / 30, default refund
amount 499 dollars (49900 minor units, also stated in `src/README.md`),
escalation keywords covering the legal / executive / urgent / lawsuit class of
terms, a confidence threshold that a 0.95-confidence classification does not
trip, and a negative sentiment threshold. -/
def defaultBusinessRules : BusinessRulesConfig :=
  { refunds :=
      { autoApproveConditions :=
          { compliantAssetsMax := 5
            completedProjectsMax := 0
            daysSinceSignupMax := 30 }
        refundAmountDefault := 499 }
    escalation :=
      { aiConfidenceThreshold := qSevenTenths
        keywords := ["legal".toList, "lawsuit".toList, "urgent".toList, "ceo".toList]
        sentimentThreshold := qMinusHalf } }

/-! ## Data model -/

/-- The usage-facts object (`userInfo`) that `evaluateRefundRequest` reads and
`calculateRefundEligibility` builds.  Every field may be absent in JavaScript,
hence the `Option`s. -/
structure UserInfo where
  compliantAssets : Option ℤ := none
  completedProjects : Option ℤ := none
  daysSinceSignup : Option ℤ := none
  subscriptionStatus : Option (List Char) := none
deriving DecidableEq

/-- The `billing` object that `shouldEscalate` probes with
`userContext?.billing?.hasDisputes`. -/
structure BillingInfo where
  hasDisputes : Bool
deriving DecidableEq

/-- A Supabase user row (the fields the pipeline reads). -/
structure UserRecord where
  id : List Char
  created_at : ℤ
  subscription_status : List Char
deriving DecidableEq

/-- A Stripe customer (the fields the pipeline reads). -/
structure StripeCustomer where
  id : List Char
deriving DecidableEq

/-- A project row; only `status` is inspected. -/
structure Project where
  status : List Char
deriving DecidableEq

/-- The result of `getCompliantAssets`. -/
structure AssetsData where
  totalCompliant : ℤ
  breakdown : List (List Char) := []
deriving DecidableEq

/-- A Stripe subscription (opaque to the claims). -/
structure Subscription where
  id : List Char
deriving DecidableEq

/-- A Stripe charge (the fields `validateRefundRequest` and `processRefund`
read). -/
structure Charge where
  amount : ℤ
  status : List Char
  refunded : Bool
deriving DecidableEq

/-- The result of `getBillingHistory`. -/
structure BillingHistory where
  charges : List Charge
  invoices : List (List Char) := []
deriving DecidableEq

/-- The result of `calculateRefundEligibility` (knowledge-base.js); the
user-not-found branch carries no `userInfo`. -/
structure RefundEligibility where
  eligible : Bool
  reason : List Char
  userInfo : Option UserInfo := none
deriving DecidableEq

/-- The duck-typed user-context object flowing through the pipeline.  A JS
object simply lacks the fields it was not given, so every field a consumer
might read is an `Option`; `buildUserContext` populates the fields it
constructs and leaves the rest `none`.  In particular `userInfo` and `billing`
are read by the rules engine but never set by `buildUserContext`. -/
structure UserContext where
  userFound : Bool := false
  email : List Char := []
  err : Option (List Char) := none
  userInfo : Option UserInfo := none
  billing : Option BillingInfo := none
  user : Option UserRecord := none
  stripeCustomer : Option StripeCustomer := none
  projects : Option (List Project) := none
  assetsData : Option AssetsData := none
  subscriptions : Option (List Subscription) := none
  billingHistory : Option BillingHistory := none
  refundEligibility : Option RefundEligibility := none
deriving DecidableEq

/-- The extracted email information the pipeline dispatches on (source field
`from` is spelled `fromAddr`, `from` being reserved in Lean). -/
structure EmailInfo where
  fromAddr : List Char
  subject : List Char
  body : List Char
deriving DecidableEq

/-- A classification result (`aiAnalysis`), as produced by the oracle adapter. -/
structure Analysis where
  actionType : List Char
  confidence : ℚ
  sentiment : Option ℚ := none
  reasoning : List Char := []
  suggestedResponse : List Char := []
  escalationReason : Option (List Char) := none
  refundAmount : Option ℤ := none
deriving DecidableEq

/-- Escalation priority levels. -/
inductive Priority
  | medium
  | high
  | critical
deriving DecidableEq

/-- The escalation decision returned by `shouldEscalate`. -/
structure EscalationDecision where
  escalate : Bool
  reasons : List (List Char)
  priority : Priority
deriving DecidableEq

/-- The three auto-approval checks of `evaluateRefundRequest`. -/
structure RefundChecks where
  compliantAssets : Bool
  completedProjects : Bool
  daysSinceSignup : Bool
deriving DecidableEq

/-- The refund decision returned by `evaluateRefundRequest`. -/
structure RefundDecision where
  autoApprove : Bool
  amount : ℤ
  reasoning : List Char
  conditions : RefundChecks
deriving DecidableEq

/-! ## business-rules.js : BusinessRulesEngine -/

/-- Reason string pushed by the low-confidence check
(`Low AI confidence: ...`). -/
def lowConfidenceReason (c : ℚ) : List Char :=
  "Low AI confidence: ".toList ++ ratToChars c

/-- Reason string pushed by the keyword check
(`Escalation keyword found: ...`). -/
def keywordFoundReason (k : List Char) : List Char :=
  "Escalation keyword found: ".toList ++ k

/-- Reason string pushed by the sentiment check (`Negative sentiment: ...`). -/
def negativeSentimentReason (s : ℚ) : List Char :=
  "Negative sentiment: ".toList ++ ratToChars s

/-- Reason string pushed by the billing-dispute check. -/
def billingDisputeReason : List Char :=
  "Customer has active billing disputes".toList

/-- Model of the JavaScript pattern `x && x < thr` on a possibly-absent
number: `undefined` and `0` are falsy, so the comparison runs only for a
present non-zero value. -/
def sentimentBelow (sentiment : Option ℚ) (thr : ℚ) : Bool :=
  match sentiment with
  | none => false
  | some s => decide (s ≠ 0) && decide (s < thr)

/-- The high-priority keyword list hard-coded in `_calculatePriority`. -/
def highPriorityKeywords : List (List Char) :=
  ["legal".toList, "ceo".toList, "urgent".toList, "lawsuit".toList]

/-- `escalationReasons.some(reason => highPriorityKeywords.some(keyword =>
reason.toLowerCase().includes(keyword)))`. -/
def hasHighPriorityKeyword (reasons : List (List Char)) : Bool :=
  reasons.any fun r => highPriorityKeywords.any fun k => containsRun k (lowerChars r)

/-- `BusinessRulesEngine._calculatePriority`. -/
def calculatePriority (escalationReasons : List (List Char)) (aiAnalysis : Analysis) :
    Priority :=
  if hasHighPriorityKeyword escalationReasons then .critical
  else if sentimentBelow aiAnalysis.sentiment qMinusThreeFifths then .high
  else if escalationReasons.length > 2 then .high
  else .medium

/-- `BusinessRulesEngine.shouldEscalate`.  The four checks push their reasons
in source order; the try/catch wrapper is dead in this embedding because the
body is total. -/
def shouldEscalate (rules : BusinessRulesConfig) (email : EmailInfo)
    (aiAnalysis : Analysis) (userContext : Option UserContext) :
    EscalationDecision :=
  let escalationRules := rules.escalation
  let confidenceReasons :=
    if aiAnalysis.confidence < escalationRules.aiConfidenceThreshold then
      [lowConfidenceReason aiAnalysis.confidence]
    else []
  let content := lowerChars (email.subject ++ ' ' :: email.body)
  let keywordReasons :=
    (escalationRules.keywords.filter fun k => containsRun (lowerChars k) content).map
      keywordFoundReason
  let sentimentReasons :=
    if sentimentBelow aiAnalysis.sentiment escalationRules.sentimentThreshold then
      [negativeSentimentReason (aiAnalysis.sentiment.getD 0)]
    else []
  let disputeReasons :=
    match userContext with
    | some ctx =>
      match ctx.billing with
      | some b => if b.hasDisputes then [billingDisputeReason] else []
      | none => []
    | none => []
  let escalationReasons :=
    confidenceReasons ++ keywordReasons ++ sentimentReasons ++ disputeReasons
  { escalate := decide (escalationReasons.length > 0)
    reasons := escalationReasons
    priority := calculatePriority escalationReasons aiAnalysis }

/-- `BusinessRulesEngine._buildRefundReasoning`.  The interpolations
`userInfo.compliantAssets || '0'` and `... || 0` render an absent or zero
value as the digit `0`. -/
def buildRefundReasoning (checks : RefundChecks) (userInfo : UserInfo) :
    List Char :=
  let assetsTxt := intToChars (userInfo.compliantAssets.getD 0)
  let projectsTxt := intToChars (userInfo.completedProjects.getD 0)
  let daysTxt := intToChars (userInfo.daysSinceSignup.getD 0)
  let passed :=
    (if checks.compliantAssets then
        ["Low asset usage (".toList ++ assetsTxt ++ " assets)".toList]
      else []) ++
    (if checks.completedProjects then
        ["No completed projects (".toList ++ projectsTxt ++ ")".toList]
      else []) ++
    (if checks.daysSinceSignup then
        ["Recent signup (".toList ++ daysTxt ++ " days)".toList]
      else [])
  let failed :=
    (if checks.compliantAssets then []
      else ["High asset usage (".toList ++ assetsTxt ++ " assets)".toList]) ++
    (if checks.completedProjects then []
      else ["Has completed projects (".toList ++ projectsTxt ++ ")".toList]) ++
    (if checks.daysSinceSignup then []
      else ["Long-term user (".toList ++ daysTxt ++ " days)".toList])
  if failed.isEmpty then "Auto-approved: ".toList ++ joinSep ", ".toList passed
  else "Requires review: ".toList ++ joinSep ", ".toList failed

/-- `BusinessRulesEngine.evaluateRefundRequest`.  `userContext.userInfo || {}`
defaults an absent usage object to the empty object, in which each comparison
against an absent field is false (`undefined < n` is false in JavaScript);
`requestedAmount || default * 100` treats an absent or zero request as the
configured default converted to cents.  The try/catch wrapper is dead in this
embedding because the body is total. -/
def evaluateRefundRequest (rules : BusinessRulesConfig)
    (userContext : UserContext) (requestedAmount : Option ℤ) : RefundDecision :=
  let conditions := rules.refunds.autoApproveConditions
  let userInfo := userContext.userInfo.getD {}
  let checks : RefundChecks :=
    { compliantAssets :=
        match userInfo.compliantAssets with
        | none => false
        | some a => decide (a < conditions.compliantAssetsMax)
      completedProjects :=
        match userInfo.completedProjects with
        | none => false
        | some p => decide (p ≤ conditions.completedProjectsMax)
      daysSinceSignup :=
        match userInfo.daysSinceSignup with
        | none => false
        | some d => decide (d ≤ conditions.daysSinceSignupMax) }
  let allConditionsMet :=
    checks.compliantAssets && checks.completedProjects && checks.daysSinceSignup
  { autoApprove := allConditionsMet
    amount :=
      match requestedAmount with
      | none => rules.refunds.refundAmountDefault * 100
      | some a => if a = 0 then rules.refunds.refundAmountDefault * 100 else a
    reasoning := buildRefundReasoning checks userInfo
    conditions := checks }

/-! ## ai.js : AIOperations.analyzeEmail -/

/-- The outcome of one oracle round-trip as seen by the adapter: a parsed
analysis, a transport/timeout error, or a JSON-parse failure (both of the
latter throw inside the try block). -/
inductive OracleOutcome
  | ok (analysis : Analysis)
  | transportError (msg : List Char)
  | parseFailure (msg : List Char)
deriving DecidableEq

/-- The fixed fallback analysis built in the catch block of `analyzeEmail`. -/
def analysisFallback (diagnostic : List Char) : Analysis :=
  { actionType := "escalate".toList
    confidence := qOneTenth
    reasoning := "Analysis failed - escalating to human".toList
    suggestedResponse :=
      ("Thanks for contacting us. A team member will review your request " ++
        "and respond shortly.").toList
    escalationReason := some ("AI analysis error: ".toList ++ diagnostic) }

/-- `AIOperations.analyzeEmail`: any error thrown in the try block (transport
failure or `JSON.parse` failure) is caught locally and converted to the fixed
fallback; the adapter itself never throws. -/
def analyzeEmail : OracleOutcome → Analysis
  | .ok analysis => analysis
  | .transportError msg => analysisFallback msg
  | .parseFailure msg => analysisFallback msg

/-! ## gmail.js : GmailOperations.isValidSupportEmail -/

/-- The automated-sender patterns skipped by `isValidSupportEmail`. -/
def skipPatterns : List (List Char) :=
  ["noreply".toList, "no-reply".toList, "donotreply".toList,
    "automated".toList, "notification".toList, "unsubscribe".toList,
    "delivery-subsystem".toList]

/-- `GmailOperations.isValidSupportEmail`. -/
def isValidSupportEmail (email : EmailInfo) : Bool :=
  let subject := lowerChars email.subject
  let sender := lowerChars email.fromAddr
  !(skipPatterns.any fun p => containsRun p sender || containsRun p subject)

/-! ## stripe.js : StripeOperations.validateRefundRequest -/

/-- Sum of the succeeded charges, as computed inside `validateRefundRequest`. -/
def totalPaid (billingHistory : BillingHistory) : ℤ :=
  ((billingHistory.charges.filter fun c => c.status = "succeeded".toList).map
    Charge.amount).sum

/-- The result object of `validateRefundRequest`. -/
structure RefundValidation where
  valid : Bool
  reason : List Char
  totalPaidOut : Option ℤ := none
deriving DecidableEq

/-- `StripeOperations.validateRefundRequest`.  Its two collaborator calls are
inputs; a throw from either is caught and folded into an invalid result. -/
def validateRefundRequest
    (customerLookup : Except (List Char) (Option StripeCustomer))
    (billingLookup : Except (List Char) BillingHistory) (amount : ℤ) :
    RefundValidation :=
  match customerLookup with
  | .error e =>
    { valid := false, reason := "Validation error: ".toList ++ e }
  | .ok none =>
    { valid := false, reason := "Customer not found in billing system".toList }
  | .ok (some _) =>
    match billingLookup with
    | .error e =>
      { valid := false, reason := "Validation error: ".toList ++ e }
    | .ok billingHistory =>
      let tp := totalPaid billingHistory
      if amount > tp then
        { valid := false
          reason :=
            "Refund amount ($".toList ++ intToChars amount ++
              ") exceeds total paid ($".toList ++ intToChars tp ++ ")".toList }
      else
        { valid := true
          reason := "Refund request validated".toList
          totalPaidOut := some tp }

/-! ## knowledge-base.js : SupabaseOperations.calculateRefundEligibility -/

/-- The pure core of `calculateRefundEligibility`, given the looked-up facts
and the current time in milliseconds (`Date.now()`); `Math.floor` of the day
quotient is `Int.fdiv`. -/
def calcRefundEligibility (now : ℤ) (user : Option UserRecord)
    (projects : List Project) (assetsData : AssetsData) : RefundEligibility :=
  match user with
  | none => { eligible := false, reason := "User not found".toList }
  | some u =>
    let daysSinceSignup := (now - u.created_at).fdiv 86400000
    let completedProjects : ℤ :=
      (projects.filter fun p => p.status = "completed".toList).length
    let compliantAssets := assetsData.totalCompliant
    let info : UserInfo :=
      { daysSinceSignup := some daysSinceSignup
        completedProjects := some completedProjects
        compliantAssets := some compliantAssets
        subscriptionStatus := some u.subscription_status }
    if daysSinceSignup ≤ 30 ∧ completedProjects = 0 ∧ compliantAssets < 5 then
      { eligible := true
        reason := "Meets auto-approval criteria".toList
        userInfo := some info }
    else
      { eligible := false
        reason :=
          "Exceeds limits: ".toList ++ intToChars daysSinceSignup ++
            "d since signup, ".toList ++ intToChars completedProjects ++
            " projects, ".toList ++ intToChars compliantAssets ++
            " compliant assets".toList
        userInfo := some info }

/-! ## index.js : buildUserContext -/

deriving instance DecidableEq for Except

/-- The collaborator calls `buildUserContext` may issue, each modelled by its
outcome (a throw is `Except.error` with the error message). -/
structure Collaborators where
  findUserByEmail : Except (List Char) (Option UserRecord)
  findCustomerByEmail : Except (List Char) (Option StripeCustomer)
  getUserProjects : Except (List Char) (List Project)
  getCompliantAssets : Except (List Char) AssetsData
  getCustomerSubscriptions : Except (List Char) (List Subscription)
  getBillingHistory : Except (List Char) BillingHistory
  calculateRefundEligibility : Except (List Char) RefundEligibility

/-- The try block of `buildUserContext`: the two `Promise.all` groups and the
eligibility call, any of whose rejections propagates to the catch.  (When both
lookups of a `Promise.all` reject, JavaScript surfaces whichever settles
first; the model surfaces them in source order.)  The Stripe-dependent reads
run only when a Stripe customer was found, and nothing past the first group
runs when the user is unknown. -/
def buildUserContextE (c : Collaborators) (email : List Char) :
    Except (List Char) UserContext := do
  let user ← c.findUserByEmail
  let stripeCustomer ← c.findCustomerByEmail
  match user with
  | none => pure { userFound := false, email := email }
  | some u =>
    let projects ← c.getUserProjects
    let assetsData ← c.getCompliantAssets
    let subscriptions ←
      match stripeCustomer with
      | some _ => c.getCustomerSubscriptions
      | none => pure []
    let billingHistory ←
      match stripeCustomer with
      | some _ => c.getBillingHistory
      | none => pure { charges := [], invoices := [] }
    let refundEligibility ← c.calculateRefundEligibility
    pure
      { userFound := true
        email := email
        user := some u
        stripeCustomer := stripeCustomer
        projects := some projects
        assetsData := some assetsData
        subscriptions := some subscriptions
        billingHistory := some billingHistory
        refundEligibility := some refundEligibility }

/-- `buildUserContext`: the catch folds any collaborator failure into a
degraded `userFound = false` context carrying the diagnostic; the function is
total, so it never raises to its caller. -/
def buildUserContext (c : Collaborators) (email : List Char) : UserContext :=
  match buildUserContextE c email with
  | .ok ctx => ctx
  | .error msg => { userFound := false, email := email, err := some msg }

/-! ## Email-processing dispatch (processEmail / executeAction /
handleRefundRequest in the email-processing endpoint, mirrored by
processEmailContent in index.js) -/

/-- The terminal action a pipeline run performs. -/
inductive ActionTaken
  | ignored
  | escalated (reasons : List (List Char)) (priority : Option Priority)
  | refundProcessed (amount : ℤ)
  | helpProvided
  | infoProvided
deriving DecidableEq

/-- `executeAction` together with `handleRefundRequest`: dispatch on the
classification's `actionType`; a non-auto-approved refund re-enters as an
escalation with a fixed reason and `high` priority; an unrecognized action
type re-enters as an escalation whose check object carries no priority. -/
def executeAction (rules : BusinessRulesConfig) (aiAnalysis : Analysis)
    (userContext : UserContext) : ActionTaken :=
  if aiAnalysis.actionType = "refund".toList then
    let refundDecision :=
      evaluateRefundRequest rules userContext aiAnalysis.refundAmount
    if refundDecision.autoApprove then .refundProcessed refundDecision.amount
    else .escalated ["Refund requires manual approval".toList] (some .high)
  else if aiAnalysis.actionType = "help_response".toList then .helpProvided
  else if aiAnalysis.actionType = "general_info".toList then .infoProvided
  else .escalated ["Unknown action type".toList] none

/-- The decision core of `processEmail`: skip invalid support mail, run the
escalation check, and only when it does not escalate fall through to
`executeAction`.  (The message sends and activity writes each branch performs
are outside this pure dispatch.) -/
def processEmailDecision (rules : BusinessRulesConfig) (email : EmailInfo)
    (aiAnalysis : Analysis) (userContext : UserContext) : ActionTaken :=
  if !isValidSupportEmail email then .ignored
  else
    let escalationCheck := shouldEscalate rules email aiAnalysis (some userContext)
    if escalationCheck.escalate then
      .escalated escalationCheck.reasons (some escalationCheck.priority)
    else executeAction rules aiAnalysis userContext

/-! ## index.js : processNewEmails (per-message loop) -/

/-- What the environment does for one candidate message: the outcome of
`getEmailContent`, of `processEmailContent` on that content (`Bool` is its
returned processed flag; `Except.error` is a throw escaping it), and of
`markEmailAsRead`. -/
structure MsgEnv where
  fetch : Except (List Char) Unit
  process : Except (List Char) Bool
  ack : Except (List Char) Unit

/-- Observable events of one `processNewEmails` pass. -/
inductive IntakeEvent
  | fetchedE (id : List Char)
  | processedE (id : List Char) (ok : Bool)
  | ackedE (id : List Char)
  | failedE (id : List Char) (err : List Char)
deriving DecidableEq, BEq

/-- The body of the per-message loop in `processNewEmails`: fetch, process,
and acknowledge only a successful run; any throw is caught at this message
boundary and recorded as a failure for this message alone. -/
def runMsgTrace (env : List Char → MsgEnv) (id : List Char) : List IntakeEvent :=
  match (env id).fetch with
  | .error e => [.failedE id e]
  | .ok _ =>
    match (env id).process with
    | .error e => [.fetchedE id, .failedE id e]
    | .ok false => [.fetchedE id, .processedE id false]
    | .ok true =>
      match (env id).ack with
      | .error e => [.fetchedE id, .processedE id true, .failedE id e]
      | .ok _ => [.fetchedE id, .processedE id true, .ackedE id]

/-- The `for (const message of searchResult.messages)` loop of
`processNewEmails`, as the concatenated event trace. -/
def processNewEmailsTrace (env : List Char → MsgEnv) :
    List (List Char) → List IntakeEvent
  | [] => []
  | id :: rest => runMsgTrace env id ++ processNewEmailsTrace env rest

/-- The message id an intake event is about. -/
def IntakeEvent.msgId : IntakeEvent → List Char
  | .fetchedE id => id
  | .processedE id _ => id
  | .ackedE id => id
  | .failedE id _ => id

/-! ## Concurrent triggers over a shared mailbox (processNewEmails under two
overlapping webhook-triggered passes) -/

/-- Observable side effects of processing one message: the outbound reply,
the activity record, and the mark-processed acknowledgement. -/
inductive RaceEvent
  | replySent (id : List Char)
  | activityLogged (id : List Char)
  | acked (id : List Char)
deriving DecidableEq, BEq

/-- Progress of one trigger's `processNewEmails` pass: not yet enumerated,
holding its snapshot of unread messages, or finished. -/
inductive RacePhase
  | idle
  | snap (pending : List (List Char))
  | finished
deriving DecidableEq

/-- Shared mailbox plus the two concurrently running passes. -/
structure RaceState where
  unread : List (List Char)
  r1 : RacePhase
  r2 : RacePhase
  trace : List RaceEvent
deriving DecidableEq

/-- One step of a single pass: enumerate the currently unread messages
(`searchEmails` snapshot), or handle the next snapshotted message — send the
reply, append the activity record, mark it read — or finish.  Handling one
message is taken as a single atomic step, which is generous to the code: the
real loop suspends at every await. -/
def raceStepRunner (ph : RacePhase) (unread : List (List Char))
    (trace : List RaceEvent) :
    RacePhase × List (List Char) × List RaceEvent :=
  match ph with
  | .idle => (.snap unread, unread, trace)
  | .snap [] => (.finished, unread, trace)
  | .snap (m :: rest) =>
    (.snap rest, unread.erase m,
      trace ++ [.replySent m, .activityLogged m, .acked m])
  | .finished => (.finished, unread, trace)

/-- One interleaving step: `true` steps the first pass, `false` the second. -/
def raceStep (chooseFirst : Bool) (s : RaceState) : RaceState :=
  if chooseFirst then
    let (r1, unread, trace) := raceStepRunner s.r1 s.unread s.trace
    { s with r1 := r1, unread := unread, trace := trace }
  else
    let (r2, unread, trace) := raceStepRunner s.r2 s.unread s.trace
    { s with r2 := r2, unread := unread, trace := trace }

/-- Run a schedule of interleaving choices. -/
def raceRun (sched : List Bool) (s : RaceState) : RaceState :=
  sched.foldl (fun st b => raceStep b st) s

/-- Two freshly triggered passes over a mailbox holding one unread message. -/
def raceInit : RaceState :=
  { unread := ["m1".toList], r1 := .idle, r2 := .idle, trace := [] }

/-! ## Concrete fixtures used by several scenario theorems -/

/-- The rational 19/20 (the 0.95 confidence of spec Scenario C). -/
def qNineteenTwentieths : ℚ := Rat.mk' 19 20 (by norm_num) (by norm_num)

/-- Scenario C message: the body contains "lawsuit". -/
def emailC : EmailInfo :=
  { fromAddr := "angry@example.com".toList
    subject := "Refund request".toList
    body := "I will file a lawsuit if this is not fixed".toList }

/-- Scenario C classification: high confidence, refund action. -/
def analysisC : Analysis :=
  { actionType := "refund".toList, confidence := qNineteenTwentieths }

/-- Scenario A user row: signed up at epoch time 0. -/
def userA : UserRecord :=
  { id := "user-1".toList, created_at := 0, subscription_status := "active".toList }

/-- Scenario A collaborators: every lookup succeeds; the user is 10 days old
with 0 completed projects and 2 compliant assets, and the eligibility service
computes from exactly those facts. -/
def collabA : Collaborators :=
  { findUserByEmail := .ok (some userA)
    findCustomerByEmail := .ok (some { id := "cus_1".toList })
    getUserProjects := .ok []
    getCompliantAssets := .ok { totalCompliant := 2 }
    getCustomerSubscriptions := .ok []
    getBillingHistory := .ok { charges := [] }
    calculateRefundEligibility :=
      .ok (calcRefundEligibility (10 * 86400000) (some userA) []
        { totalCompliant := 2 }) }

/-- The pipeline-built context of the Scenario A user. -/
def ctxA : UserContext := buildUserContext collabA "user@example.com".toList

/-! ## Definitions following the specification's wording (for refinement
comparisons against the code) -/

/-- Check (a) as the spec words it: reason when
`classification.confidence < confidenceThreshold`. -/
def specConfidenceReasons (rules : EscalationConfig) (a : Analysis) :
    List (List Char) :=
  if a.confidence < rules.aiConfidenceThreshold then
    [lowConfidenceReason a.confidence]
  else []

/-- Check (b) as the spec words it: a reason per configured escalation keyword
occurring case-insensitively in the subject+body concatenation. -/
def specKeywordReasons (rules : EscalationConfig) (email : EmailInfo) :
    List (List Char) :=
  (rules.keywords.filter fun k =>
      containsRun (lowerChars k) (lowerChars (email.subject ++ ' ' :: email.body))).map
    keywordFoundReason

/-- Check (c) as the spec words it: reason when sentiment is present and below
the threshold. -/
def specSentimentReasons (rules : EscalationConfig) (a : Analysis) :
    List (List Char) :=
  match a.sentiment with
  | none => []
  | some s =>
    if s < rules.sentimentThreshold then [negativeSentimentReason s] else []

/-- Check (d) as the spec words it: reason when the context indicates active
billing disputes. -/
def specDisputeReasons (userContext : Option UserContext) : List (List Char) :=
  match userContext with
  | some ctx =>
    match ctx.billing with
    | some b => if b.hasDisputes then [billingDisputeReason] else []
    | none => []
  | none => []

/-- Priority as the spec words it: `critical` on any high-severity keyword
reason; else `high` when sentiment < -0.6 or more than two reasons; else
`medium`. -/
def specPriority (reasons : List (List Char)) (a : Analysis) : Priority :=
  if hasHighPriorityKeyword reasons then .critical
  else if
      (match a.sentiment with
        | none => false
        | some s => decide (s < qMinusThreeFifths)) ||
        decide (reasons.length > 2) then .high
  else .medium

/-- A context with billing data present: one succeeded charge of 100 minor
units. -/
def ctxB : UserContext :=
  { userFound := true
    billingHistory :=
      some { charges := [{ amount := 100, status := "succeeded".toList,
                           refunded := false }] } }

/-- A billing history with a single succeeded charge of 100 minor units. -/
def bhW : BillingHistory :=
  { charges := [{ amount := 100, status := "succeeded".toList, refunded := false }] }

/-- Collaborators whose identity lookup throws. -/
def collabFail : Collaborators :=
  { findUserByEmail := .error "connection refused".toList
    findCustomerByEmail := .ok none
    getUserProjects := .ok []
    getCompliantAssets := .ok { totalCompliant := 0 }
    getCustomerSubscriptions := .ok []
    getBillingHistory := .ok { charges := [] }
    calculateRefundEligibility := .ok { eligible := false, reason := [] } }

/-- An intake environment where message "bad" fails inside its run and every
other message succeeds end to end. -/
def envW : List Char → MsgEnv := fun id =>
  if id = "bad".toList then
    { fetch := .ok (), process := .error "boom".toList, ack := .ok () }
  else { fetch := .ok (), process := .ok true, ack := .ok () }

/-! ## Helper lemmas -/

/-- For a non-positive threshold the JavaScript truthiness guard on sentiment
(`x && x < thr`) is invisible: a sentiment below the threshold is in
particular non-zero. -/
theorem sentimentBelow_eq_of_nonpos (s thr : ℚ) (hthr : thr ≤ 0) :
    sentimentBelow (some s) thr = decide (s < thr) := by
  by_cases h : s < thr
  · have hs : s ≠ 0 := ne_of_lt (lt_of_lt_of_le h hthr)
    simp [sentimentBelow, h, hs]
  · simp [sentimentBelow, h]

/-- Every context produced by the pipeline's `buildUserContext` lacks the
top-level `userInfo` field: neither the degraded branch nor either success
branch ever sets it (the usage facts live under
`refundEligibility.userInfo`). -/
theorem buildUserContext_userInfo_none (c : Collaborators) (e : List Char) :
    (buildUserContext c e).userInfo = none := by
  unfold buildUserContext
  rcases h : buildUserContextE c e with msg | ctx
  · rfl
  · simp only [buildUserContextE, bind, Except.bind, pure, Except.pure] at h
    rcases hu : c.findUserByEmail with m | u <;> rw [hu] at h
    · simp at h
    rcases hc : c.findCustomerByEmail with m | sc <;> rw [hc] at h
    · simp at h
    rcases u with _ | u
    · simp at h
      rw [← h]
    rcases hp : c.getUserProjects with m | projects <;> rw [hp] at h
    · simp at h
    rcases ha : c.getCompliantAssets with m | assets <;> rw [ha] at h
    · simp at h
    rcases sc with _ | sc
    · rcases hr : c.calculateRefundEligibility with m | re <;> rw [hr] at h
      · simp at h
      simp at h
      rw [← h]
    · rcases hsub : c.getCustomerSubscriptions with m | subs <;> rw [hsub] at h
      · simp at h
      rcases hb : c.getBillingHistory with m | bh <;> rw [hb] at h
      · simp at h
      rcases hr : c.calculateRefundEligibility with m | re <;> rw [hr] at h
      · simp at h
      simp at h
      rw [← h]

/-- Every event of one message's run segment is tagged with that message's
id. -/
theorem mem_runMsgTrace_msgId (env : List Char → MsgEnv) (id : List Char)
    (ev : IntakeEvent) (h : ev ∈ runMsgTrace env id) : ev.msgId = id := by
  unfold runMsgTrace at h
  rcases hf : (env id).fetch with e | u <;> rw [hf] at h
  · simp at h; subst h; rfl
  · rcases hp : (env id).process with e | b <;> rw [hp] at h
    · simp at h; rcases h with h | h <;> subst h <;> rfl
    · rcases b with _ | _
      · simp at h; rcases h with h | h <;> subst h <;> rfl
      · rcases ha : (env id).ack with e | u2 <;> rw [ha] at h
        · simp at h; rcases h with h | h | h <;> subst h <;> rfl
        · simp at h; rcases h with h | h | h <;> subst h <;> rfl

/-- One message's run segment contains an acknowledgement exactly when the
whole run on that message succeeded: fetch ok, `processEmailContent` returned
true, and the mark-as-read call succeeded. -/
theorem ackedE_mem_runMsgTrace (env : List Char → MsgEnv) (id m : List Char) :
    IntakeEvent.ackedE m ∈ runMsgTrace env id ↔
      (m = id ∧ (env id).fetch = .ok () ∧ (env id).process = .ok true ∧
        (env id).ack = .ok ()) := by
  unfold runMsgTrace
  rcases hf : (env id).fetch with e | u
  · simp [hf]
  · rcases u
    rcases hp : (env id).process with e | b
    · simp [hf, hp]
    · rcases b with _ | _
      · simp [hf, hp]
      · rcases ha : (env id).ack with e | u2
        · simp [hf, hp, ha]
        · rcases u2
          simp [hf, hp, ha]

/-- Acknowledgement across a whole pass: present in the trace exactly for
batch members whose own run fully succeeded. -/
theorem ackedE_mem_trace (env : List Char → MsgEnv) (ids : List (List Char))
    (m : List Char) :
    IntakeEvent.ackedE m ∈ processNewEmailsTrace env ids ↔
      (m ∈ ids ∧ (env m).fetch = .ok () ∧ (env m).process = .ok true ∧
        (env m).ack = .ok ()) := by
  induction ids with
  | nil => simp [processNewEmailsTrace]
  | cons id rest ih =>
    simp only [processNewEmailsTrace, List.mem_append, ih,
      ackedE_mem_runMsgTrace]
    constructor
    · rintro (⟨hm, h⟩ | ⟨hm, h⟩)
      · subst hm; exact ⟨List.mem_cons_self _ _, h⟩
      · exact ⟨List.mem_cons_of_mem _ hm, h⟩
    · rintro ⟨hm, h⟩
      rcases List.mem_cons.mp hm with hm | hm
      · subst hm; exact Or.inl ⟨rfl, h⟩
      · exact Or.inr ⟨hm, h⟩

/-- A message's run segment depends only on that message's own environment. -/
theorem runMsgTrace_congr (env env2 : List Char → MsgEnv) (id m : List Char)
    (hne : id ≠ m) (hagree : ∀ j, j ≠ m → env j = env2 j) :
    runMsgTrace env id = runMsgTrace env2 id := by
  unfold runMsgTrace
  rw [hagree id hne]

/-- Changing what happens inside one message's run does not change any other
message's events in the pass. -/
theorem trace_isolation (env env2 : List Char → MsgEnv)
    (ids : List (List Char)) (m : List Char)
    (hagree : ∀ j, j ≠ m → env j = env2 j) (ev : IntakeEvent)
    (hev : ev.msgId ≠ m) :
    ev ∈ processNewEmailsTrace env ids ↔
      ev ∈ processNewEmailsTrace env2 ids := by
  induction ids with
  | nil => simp [processNewEmailsTrace]
  | cons id rest ih =>
    simp only [processNewEmailsTrace, List.mem_append]
    by_cases hid : id = m
    · subst hid
      constructor
      · rintro (h | h)
        · exact absurd (mem_runMsgTrace_msgId env id ev h) hev
        · exact Or.inr (ih.mp h)
      · rintro (h | h)
        · exact absurd (mem_runMsgTrace_msgId env2 id ev h) hev
        · exact Or.inr (ih.mpr h)
    · rw [runMsgTrace_congr env env2 id m hid hagree]
      exact or_congr Iff.rfl ih

/-! ## Claim theorems -/

/-- Claim C1.  The refund evaluation does auto-approve exactly when the three
threshold checks pass on a `userInfo` object — but the pipeline's
`buildUserContext` never places the usage facts at `userContext.userInfo`
(they sit under `refundEligibility.userInfo`), so for every pipeline-built
context all three checks read an absent field and `autoApprove` is false.  In
particular, for the Scenario A user (10 days since signup, 0 completed
projects, 2 compliant assets) the eligibility service deems the user eligible
and the same facts fed directly as `userInfo` auto-approve, yet
`evaluateRefundRequest` on the pipeline-built context returns
`autoApprove = false` (with `amount = 49900`), contradicting the claim's
`autoApprove = true`. -/
theorem evaluateRefund_pipeline_scenarioA :
    (∀ (rules : BusinessRulesConfig) (c : Collaborators) (e : List Char)
        (ra : Option ℤ),
      (evaluateRefundRequest rules (buildUserContext c e) ra).autoApprove = false) ∧
    ctxA.userFound = true ∧
    ctxA.refundEligibility.map RefundEligibility.eligible = some true ∧
    ctxA.refundEligibility.bind RefundEligibility.userInfo =
      some { daysSinceSignup := some 10
             completedProjects := some 0
             compliantAssets := some 2
             subscriptionStatus := some "active".toList } ∧
    (evaluateRefundRequest defaultBusinessRules ctxA none).autoApprove = false ∧
    (evaluateRefundRequest defaultBusinessRules ctxA none).amount = 49900 ∧
    (evaluateRefundRequest defaultBusinessRules
        { userInfo := some { compliantAssets := some 2
                             completedProjects := some 0
                             daysSinceSignup := some 10 } }
        none).autoApprove = true := by
  refine ⟨?_, by decide, by decide, by decide, by decide, by decide, by decide⟩
  intro rules c e ra
  have h := buildUserContext_userInfo_none c e
  simp [evaluateRefundRequest, h]

/-- Claim C2.  Escalation precedence: whenever the escalation decision says
escalate, the dispatch produces the escalation outcome carrying that
decision's reasons and priority, and never the refund, help-response or
general-info action, regardless of the classification's `actionType`. -/
theorem escalation_precedence (rules : BusinessRulesConfig) (email : EmailInfo)
    (a : Analysis) (ctx : UserContext)
    (hvalid : isValidSupportEmail email = true)
    (hesc : (shouldEscalate rules email a (some ctx)).escalate = true) :
    processEmailDecision rules email a ctx =
      .escalated (shouldEscalate rules email a (some ctx)).reasons
        (some (shouldEscalate rules email a (some ctx)).priority) ∧
    (∀ amt, processEmailDecision rules email a ctx ≠ .refundProcessed amt) ∧
    processEmailDecision rules email a ctx ≠ .helpProvided ∧
    processEmailDecision rules email a ctx ≠ .infoProvided := by
  have h : processEmailDecision rules email a ctx =
      .escalated (shouldEscalate rules email a (some ctx)).reasons
        (some (shouldEscalate rules email a (some ctx)).priority) := by
    simp [processEmailDecision, hvalid, hesc]
  exact ⟨h, fun amt => by simp [h], by simp [h], by simp [h]⟩

/-- Claim C2 witness: a concrete escalating message whose classification
nevertheless demands a refund is dispatched as an escalation. -/
theorem escalation_precedence_witness :
    processEmailDecision defaultBusinessRules emailC analysisC {} =
      .escalated (shouldEscalate defaultBusinessRules emailC analysisC (some {})).reasons
        (some (shouldEscalate defaultBusinessRules emailC analysisC (some {})).priority) :=
  (escalation_precedence defaultBusinessRules emailC analysisC {} (by decide)
    (by decide)).1

/-- Claim C3.  Two concurrently triggered passes over the same single unread
message id, interleaved so that both enumerate the mailbox before either
marks the message read (each message handling taken as one atomic step, which
is generous to the code), both complete and the shared trace carries two
replies, two activity records, and two acknowledgements for that id — not the
exactly-one of the claim.  The source has no idempotency guard. -/
theorem concurrent_triggers_duplicate_actions :
    (raceRun [true, false, true, false, true, false] raceInit).r1 = .finished ∧
    (raceRun [true, false, true, false, true, false] raceInit).r2 = .finished ∧
    (raceRun [true, false, true, false, true, false] raceInit).trace.count
      (RaceEvent.replySent "m1".toList) = 2 ∧
    (raceRun [true, false, true, false, true, false] raceInit).trace.count
      (RaceEvent.activityLogged "m1".toList) = 2 ∧
    (raceRun [true, false, true, false, true, false] raceInit).trace.count
      (RaceEvent.acked "m1".toList) = 2 := by
  decide

/-- Claim C4 counterexample: a context whose billing history is available and
totals 100 minor units paid, yet `evaluateRefundRequest` with a requested
amount of 20000 returns `amount = 20000`, exceeding the total paid — the
refund decision never consults billing data. -/
theorem refund_amount_can_exceed_total_paid :
    ctxB.billingHistory.map totalPaid = some 100 ∧
    (evaluateRefundRequest defaultBusinessRules ctxB (some 20000)).amount = 20000 ∧
    ¬ (evaluateRefundRequest defaultBusinessRules ctxB (some 20000)).amount ≤ 100 := by
  decide

/-- Claim C4 (amended).  The bound holds of the separate billing validation:
whenever `validateRefundRequest` reports the request valid, the billing
lookup succeeded and the amount is at most the sum of succeeded charges — a
request exceeding the total paid is rejected as invalid. -/
theorem validateRefund_amount_bounded
    (cust : Except (List Char) (Option StripeCustomer))
    (bill : Except (List Char) BillingHistory) (amount : ℤ)
    (h : (validateRefundRequest cust bill amount).valid = true) :
    ∃ bh, bill = .ok bh ∧ amount ≤ totalPaid bh := by
  unfold validateRefundRequest at h
  rcases cust with m | cu
  · simp at h
  rcases cu with _ | cu
  · simp at h
  rcases bill with m | bh
  · simp at h
  refine ⟨bh, rfl, ?_⟩
  by_cases hgt : amount > totalPaid bh
  · simp [hgt] at h
  · exact le_of_not_lt hgt

/-- Claim C4 witness: a validated request of 50 against a history with one
succeeded 100-unit charge is within the total paid. -/
theorem validateRefund_amount_bounded_witness :
    ∃ bh, (Except.ok bhW : Except (List Char) BillingHistory) = .ok bh ∧
      (50 : ℤ) ≤ totalPaid bh :=
  validateRefund_amount_bounded (.ok (some { id := "cus_1".toList })) (.ok bhW) 50
    (by decide)

/-- Claim C5 counterexample: on a JSON-parse failure the adapter does return
the fixed fallback with `actionType = "escalate"` and confidence 0.1, but its
`reasoning` is the string "Analysis failed - escalating to human", not
"analysis failed" as the claim states. -/
theorem analyzeEmail_fallback_reasoning_differs :
    (analyzeEmail (.parseFailure "Unexpected token".toList)).actionType =
      "escalate".toList ∧
    (analyzeEmail (.parseFailure "Unexpected token".toList)).confidence =
      qOneTenth ∧
    (analyzeEmail (.parseFailure "Unexpected token".toList)).reasoning ≠
      "analysis failed".toList := by
  decide

/-- Claim C5 (amended).  The adapter never throws: every transport error and
every JSON-parse failure is converted to the fixed fallback result with
`actionType = "escalate"`, confidence 1/10, reasoning "Analysis failed -
escalating to human", and an `escalationReason` carrying the diagnostic. -/
theorem analyzeEmail_failure_fallback (msg : List Char) :
    analyzeEmail (.transportError msg) = analysisFallback msg ∧
    analyzeEmail (.parseFailure msg) = analysisFallback msg ∧
    (analysisFallback msg).actionType = "escalate".toList ∧
    (analysisFallback msg).confidence = qOneTenth ∧
    (analysisFallback msg).reasoning =
      "Analysis failed - escalating to human".toList ∧
    (analysisFallback msg).escalationReason =
      some ("AI analysis error: ".toList ++ msg) :=
  ⟨rfl, rfl, rfl, rfl, rfl, rfl⟩

/-- Claim C6.  Under the default configuration, `shouldEscalate` accumulates
its reasons as exactly the concatenation of the four independent checks as
the spec describes them — low confidence, configured keyword occurring
case-insensitively in subject+body, sentiment below threshold when present,
and active billing disputes — and escalates exactly when the accumulated list
is non-empty. -/
theorem shouldEscalate_accumulates_four_checks (email : EmailInfo) (a : Analysis)
    (ctx : Option UserContext) :
    (shouldEscalate defaultBusinessRules email a ctx).reasons =
      specConfidenceReasons defaultBusinessRules.escalation a ++
        specKeywordReasons defaultBusinessRules.escalation email ++
        specSentimentReasons defaultBusinessRules.escalation a ++
        specDisputeReasons ctx ∧
    ((shouldEscalate defaultBusinessRules email a ctx).escalate = true ↔
      (shouldEscalate defaultBusinessRules email a ctx).reasons ≠ []) := by
  have hsent :
      (if sentimentBelow a.sentiment defaultBusinessRules.escalation.sentimentThreshold
        then [negativeSentimentReason (a.sentiment.getD 0)] else []) =
      specSentimentReasons defaultBusinessRules.escalation a := by
    rcases hs : a.sentiment with _ | s
    · simp [sentimentBelow, specSentimentReasons, hs]
    · rw [sentimentBelow_eq_of_nonpos s _ (by decide)]
      by_cases h : s < defaultBusinessRules.escalation.sentimentThreshold <;>
        simp [specSentimentReasons, hs, h]
  constructor
  · simp only [shouldEscalate, specConfidenceReasons, specKeywordReasons,
      specDisputeReasons]
    rw [← hsent]
  · show decide ((shouldEscalate defaultBusinessRules email a ctx).reasons.length > 0)
        = true ↔ (shouldEscalate defaultBusinessRules email a ctx).reasons ≠ []
    generalize (shouldEscalate defaultBusinessRules email a ctx).reasons = R
    simp [List.length_pos]

/-- Claim C7.  `_calculatePriority` computes exactly the spec's priority rule:
`critical` whenever some accumulated reason contains a high-severity keyword
(legal / ceo / urgent / lawsuit), overriding the sentiment and count rules;
otherwise `high` when sentiment < -0.6 or more than two reasons; otherwise
`medium`.  Scenario C: a message whose body contains "lawsuit", classified
with confidence 0.95, escalates with priority `critical` on the keyword
reason alone — the same classification without the keyword does not
escalate. -/
theorem calculatePriority_matches_spec :
    (∀ (reasons : List (List Char)) (a : Analysis),
      calculatePriority reasons a = specPriority reasons a) ∧
    (shouldEscalate defaultBusinessRules emailC analysisC none).escalate = true ∧
    (shouldEscalate defaultBusinessRules emailC analysisC none).priority = .critical ∧
    (shouldEscalate defaultBusinessRules emailC analysisC none).reasons =
      [keywordFoundReason "lawsuit".toList] ∧
    (shouldEscalate defaultBusinessRules
        { emailC with body := "please send an update".toList } analysisC
        none).escalate = false := by
  refine ⟨?_, by decide, by decide, by decide, by decide⟩
  intro reasons a
  unfold calculatePriority specPriority
  by_cases hk : hasHighPriorityKeyword reasons
  · simp [hk]
  · rcases hs : a.sentiment with _ | s
    · simp [hk, sentimentBelow]
    · rw [sentimentBelow_eq_of_nonpos s _ (by decide)]
      by_cases h : s < qMinusThreeFifths <;> simp [hk, h]

/-- Claim C8.  `buildUserContext` never raises: it is a total function of its
collaborators' outcomes, and whenever the aggregation encountered a failure
it returns the degraded context with `userFound = false` and the diagnostic
attached, which the pipeline then proceeds with. -/
theorem buildUserContext_recovers (c : Collaborators) (e msg : List Char)
    (h : buildUserContextE c e = .error msg) :
    buildUserContext c e =
      { userFound := false, email := e, err := some msg } ∧
    (buildUserContext c e).userFound = false ∧
    (buildUserContext c e).err = some msg := by
  have h2 : buildUserContext c e =
      { userFound := false, email := e, err := some msg } := by
    simp [buildUserContext, h]
  exact ⟨h2, by rw [h2], by rw [h2]⟩

/-- Claim C8 witness: a throwing identity lookup is folded into the degraded
context carrying its message. -/
theorem buildUserContext_recovers_witness :
    buildUserContext collabFail "a@b.co".toList =
      { userFound := false, email := "a@b.co".toList,
        err := some "connection refused".toList } :=
  (buildUserContext_recovers collabFail "a@b.co".toList
    "connection refused".toList (by decide)).1

/-- Claim C9.  Per-message processing in `processNewEmails`: a message is
acknowledged exactly when it is in the batch and its own run fully succeeded
(fetch ok, `processEmailContent` returned true, mark-as-read ok); one
message's events are unaffected by what happens inside any other message's
run; and a message whose run throws is left unacknowledged. -/
theorem processNewEmails_per_message (env : List Char → MsgEnv)
    (ids : List (List Char)) :
    (∀ m, IntakeEvent.ackedE m ∈ processNewEmailsTrace env ids ↔
      (m ∈ ids ∧ (env m).fetch = .ok () ∧ (env m).process = .ok true ∧
        (env m).ack = .ok ())) ∧
    (∀ (env2 : List Char → MsgEnv) (m : List Char),
      (∀ j, j ≠ m → env j = env2 j) →
      ∀ ev : IntakeEvent, ev.msgId ≠ m →
        (ev ∈ processNewEmailsTrace env ids ↔
          ev ∈ processNewEmailsTrace env2 ids)) ∧
    (∀ m msg, m ∈ ids → (env m).process = .error msg →
      IntakeEvent.ackedE m ∉ processNewEmailsTrace env ids) := by
  refine ⟨fun m => ackedE_mem_trace env ids m,
    fun env2 m hagree ev hev => trace_isolation env env2 ids m hagree ev hev,
    fun m msg hm herr hmem => ?_⟩
  have h := (ackedE_mem_trace env ids m).mp hmem
  rw [herr] at h
  exact absurd h.2.2.1 (by simp)

/-- Claim C9 witness: in a batch where "bad" fails and "good" succeeds, "good"
is acknowledged and "bad" is not. -/
theorem processNewEmails_per_message_witness :
    IntakeEvent.ackedE "good".toList ∈
      processNewEmailsTrace envW ["bad".toList, "good".toList] ∧
    IntakeEvent.ackedE "bad".toList ∉
      processNewEmailsTrace envW ["bad".toList, "good".toList] := by
  have h := processNewEmails_per_message envW ["bad".toList, "good".toList]
  refine ⟨(h.1 "good".toList).mpr ⟨by decide, by decide, by decide, by decide⟩, ?_⟩
  exact h.2.2 "bad".toList "boom".toList (by decide) (by decide)

/-- Claim C10.  An explicit requested amount of 0 is falsy in
`requestedAmount || default * 100`, so for every context the decision's
amount is the configured default in minor units — 49900 under the default
configuration, never 0. -/
theorem evaluateRefund_zero_requested_uses_default (ctx : UserContext) :
    (∀ rules : BusinessRulesConfig,
      (evaluateRefundRequest rules ctx (some 0)).amount =
        rules.refunds.refundAmountDefault * 100) ∧
    (evaluateRefundRequest defaultBusinessRules ctx (some 0)).amount = 49900 ∧
    (evaluateRefundRequest defaultBusinessRules ctx (some 0)).amount ≠ 0 := by
  refine ⟨fun rules => by simp [evaluateRefundRequest], ?_, ?_⟩ <;>
    simp [evaluateRefundRequest, defaultBusinessRules]
